import Mathlib

/-!
# Verification of the grafana-deployment-tracker scripts

Shallow embedding of the three Python scripts of the repository
(`scripts/calculate_delays.py`, `scripts/deploy_dashboard.py`,
`scripts/serve_data.py`) and proofs of the specification claims about them.

Conventions of the embedding:
* JSON records are modelled as structures whose optional fields are
  `Option`-typed (a `none` field models an absent JSON key, so that
  indexing it raises `KeyError` in the Python source).
* `datetime` instants are modelled as `Int` microseconds relative to the
  Unix epoch; Python's `timedelta` normalisation uses floor division,
  modelled with `Int.fdiv` / `Int.fmod`.
* The float division producing the average delay is modelled exactly with
  `Rat`.
* Process interaction (file system, HTTP) is modelled by passing the
  relevant external state explicitly and returning the exit code together
  with the resulting state.
-/

namespace DeploymentTracker

/-- A deployment record from `data/deployments.json`, restricted to the
fields the script `calculate_delays.py` reads or writes.  A `none` field
models an absent key of the JSON object. -/
structure Deployment where
  name : Option String
  plannedDeploymentDate : Option String
  deploymentDate : Option String
  typ : Option String
  delayDays : Option Int
  deriving Repr, DecidableEq

/-- The top-level JSON document of `data/deployments.json`: the
`deployments` array and the `lastUpdated` field the script overwrites. -/
structure Document where
  deployments : List Deployment
  lastUpdated : Option String
  deriving Repr, DecidableEq

/-! ## Date parsing

`calculate_delays.py` parses each date with
`datetime.fromisoformat(s.replace('Z', '+00:00'))`.  We embed
`str.replace` (which replaces every occurrence) and the documented
CPython `fromisoformat` grammar
`YYYY-MM-DD[<sep>HH[:MM[:SS[.fff|.ffffff]]][±HH:MM[:SS[.ffffff]]]]`
(any single separator character) with full calendar validation
(`MINYEAR = 1`, so year `0000` is a `ValueError`), returning the instant
in microseconds since the Unix epoch together with whether the datetime
is aware (carries a UTC offset, which is subtracted from the wall-clock
value) or naive.  Awareness matters: subtracting a naive from an aware
`datetime` raises `TypeError`, which the per-record handlers do not
catch. -/

/-- Read exactly `n` decimal digits from the front of a character list. -/
def readDigits : Nat → List Char → Option (Nat × List Char)
  | 0, cs => some (0, cs)
  | _ + 1, [] => none
  | n + 1, c :: cs =>
    if c.isDigit then
      match readDigits n cs with
      | some (v, rest) => some ((c.toNat - '0'.toNat) * 10 ^ n + v, rest)
      | none => none
    else
      none

/-- Gregorian leap-year test, as `datetime` uses. -/
def isLeap (y : Nat) : Bool :=
  y % 4 == 0 && (y % 100 != 0 || y % 400 == 0)

/-- Number of days of month `m` (1-12) of year `y`. -/
def daysInMonth (y m : Nat) : Nat :=
  if m == 2 then (if isLeap y then 29 else 28)
  else if m == 4 || m == 6 || m == 9 || m == 11 then 30
  else 31

/-- Days from 1970-01-01 to the civil date `y-m-d` (standard
days-from-civil computation over a proleptic Gregorian calendar). -/
def daysFromCivil (y m d : Nat) : Int :=
  let yi : Int := if m ≤ 2 then (y : Int) - 1 else (y : Int)
  let era : Int := yi.fdiv 400
  let yoe : Int := yi - era * 400
  let mp : Int := if m > 2 then (m : Int) - 3 else (m : Int) + 9
  let doy : Int := (153 * mp + 2).fdiv 5 + (d : Int) - 1
  let doe : Int := yoe * 365 + yoe.fdiv 4 - yoe.fdiv 100 + doy
  era * 146097 + doe - 719468

def microsPerSecond : Int := 1000000
def microsPerDay : Int := 86400 * microsPerSecond

/-- Parse optional fractional seconds `.fff` or `.ffffff`, returning
microseconds and the rest of the input. -/
def parseFraction : List Char → Option (Nat × List Char)
  | '.' :: cs =>
    match readDigits 6 cs with
    | some (v, rest) => some (v, rest)
    | none =>
      match readDigits 3 cs with
      | some (v, rest) => some (v * 1000, rest)
      | none => none
  | cs => some (0, cs)

/-- Parse the time-of-day part `HH[:MM[:SS[.fff|.ffffff]]]` into
microseconds past midnight (hour-only times are valid, as in CPython;
components are range-checked as the `datetime` constructor does). -/
def parseTime (cs : List Char) : Option (Int × List Char) :=
  match readDigits 2 cs with
  | none => none
  | some (h, cs1) =>
    if h < 24 then
      match cs1 with
      | ':' :: cs2 =>
        match readDigits 2 cs2 with
        | none => none
        | some (mi, cs3) =>
          if mi < 60 then
            match cs3 with
            | ':' :: cs4 =>
              match readDigits 2 cs4 with
              | none => none
              | some (s, cs5) =>
                if s < 60 then
                  match parseFraction cs5 with
                  | some (frac, rest) =>
                    some (((h * 3600 + mi * 60 + s : Nat) : Int) *
                      microsPerSecond + (frac : Int), rest)
                  | none => none
                else none
            | rest =>
              some (((h * 3600 + mi * 60 : Nat) : Int) * microsPerSecond,
                rest)
          else none
      | rest => some (((h * 3600 : Nat) : Int) * microsPerSecond, rest)
    else none

/-- Parse an optional trailing UTC offset `±HH:MM[:SS[.ffffff]]` (the
tz fraction must be exactly six digits, as in CPython), returning
`some none` for a naive datetime (no offset present) and
`some (some off)` for an aware one.  A `timezone` requires the offset
magnitude to be strictly below 24 hours; no per-component bound is
imposed (the components feed a `timedelta`). -/
def parseOffset : List Char → Option (Option Int)
  | [] => some none
  | c :: cs =>
    if c = '+' || c = '-' then
      match readDigits 2 cs with
      | none => none
      | some (oh, cs1) =>
        match cs1 with
        | ':' :: cs2 =>
          match readDigits 2 cs2 with
          | none => none
          | some (om, cs3) =>
            let finish (osec : Nat) (ofrac : Nat) : Option (Option Int) :=
              let mag : Int :=
                ((oh * 3600 + om * 60 + osec : Nat) : Int) *
                  microsPerSecond + (ofrac : Int)
              if mag < 24 * 3600 * microsPerSecond then
                some (some (if c = '-' then -mag else mag))
              else none
            match cs3 with
            | [] => finish 0 0
            | ':' :: cs4 =>
              match readDigits 2 cs4 with
              | none => none
              | some (os_, cs5) =>
                match cs5 with
                | [] => finish os_ 0
                | '.' :: cs6 =>
                  match readDigits 6 cs6 with
                  | some (ofrac, []) => finish os_ ofrac
                  | _ => none
                | _ => none
            | _ => none
        | _ => none
    else none

/-- Embedding of `datetime.fromisoformat` on the documented grammar
`YYYY-MM-DD[<sep>HH[:MM[:SS[.fff|.ffffff]]][±HH:MM[:SS[.ffffff]]]]` (any
single separator character, as in CPython; year at least `MINYEAR = 1`),
yielding the instant in microseconds since the Unix epoch (offset
subtracted when present) paired with the awareness flag: `true` when the
string carried a UTC offset, `false` for a naive datetime. -/
def fromisoformatList (cs : List Char) : Option (Int × Bool) :=
  match readDigits 4 cs with
  | none => none
  | some (y, cs1) =>
    match cs1 with
    | '-' :: cs2 =>
      match readDigits 2 cs2 with
      | none => none
      | some (m, cs3) =>
        match cs3 with
        | '-' :: cs4 =>
          match readDigits 2 cs4 with
          | none => none
          | some (d, cs5) =>
            if 1 ≤ y && 1 ≤ m && m ≤ 12 && 1 ≤ d && d ≤ daysInMonth y m then
              let dayMicros := daysFromCivil y m d * microsPerDay
              match cs5 with
              | [] => some (dayMicros, false)
              | _ :: cs6 =>
                match parseTime cs6 with
                | none => none
                | some (tod, rest) =>
                  match parseOffset rest with
                  | none => none
                  | some none => some (dayMicros + tod, false)
                  | some (some off) => some (dayMicros + tod - off, true)
            else none
        | _ => none
    | _ => none

/-- `fromisoformat` on a `String`. -/
def fromisoformat (s : String) : Option (Int × Bool) :=
  fromisoformatList s.toList

/-- `s.replace('Z', '+00:00')` of the script: Python `str.replace`
substitutes every occurrence of the pattern, here the single character
`'Z'`. -/
def replaceZ : List Char → List Char
  | [] => []
  | c :: cs =>
    if c = 'Z' then '+' :: '0' :: '0' :: ':' :: '0' :: '0' :: replaceZ cs
    else c :: replaceZ cs

/-- The date normalisation of the script:
`datetime.fromisoformat(s.replace('Z', '+00:00'))`.  The result carries
the instant and whether the parsed datetime is aware. -/
def parseDate (s : String) : Option (Int × Bool) :=
  fromisoformatList (replaceZ s.toList)

/-- `timedelta.days` of the difference of two instants: Python's
`timedelta` normalisation floors the day count toward negative
infinity. -/
def timedeltaDays (micros : Int) : Int :=
  micros.fdiv microsPerDay

/-! ## The per-record loop body of `calculate_delays.py` (lines 36-66)

Each iteration runs under a `try` that catches `KeyError` (a missing
field) and `ValueError` (an unparsable date) and prints one warning.  The
observable outcome of one iteration is the (possibly updated) record plus
which control path was taken. -/

/-- Control-flow outcome of one iteration of the deployment loop. -/
inductive Outcome where
  /-- Both dates parsed and `Type` was present: `DelayDays` was written,
  the type counters saw `t` and `delay` was added to the total. -/
  | processed (delay : Int) (t : String)
  /-- A `KeyError` on a date field: warning printed, record unchanged. -/
  | skippedMissingDate
  /-- A `ValueError` from `fromisoformat`: warning printed, record
  unchanged. -/
  | skippedBadDate
  /-- Both dates parsed, so `DelayDays` was written, but the `Type` lookup
  raised `KeyError`: warning printed, no counter and no total update. -/
  | missingTypeAfterWrite (delay : Int)
  deriving Repr, DecidableEq

/-- One iteration of the `for deployment in data['deployments']` loop:
parse `PlannedDeploymentDate`, then `DeploymentDate` (a missing key raises
`KeyError`, a bad date `ValueError`, both caught with the record left as
it was), subtract the datetimes, write `DelayDays`, then look up `Type`
(whose `KeyError` fires after the write).  When exactly one of the two
datetimes is aware, the subtraction at line 49 raises `TypeError`, which
neither per-record handler catches: the iteration — and with it the whole
loop — aborts before the `DelayDays` assignment, modelled by
`.error ()`. -/
def processOne (d : Deployment) : Except Unit (Deployment × Outcome) :=
  match d.plannedDeploymentDate with
  | none => .ok (d, .skippedMissingDate)
  | some ps =>
    match parseDate ps with
    | none => .ok (d, .skippedBadDate)
    | some (planned, plannedAware) =>
      match d.deploymentDate with
      | none => .ok (d, .skippedMissingDate)
      | some dstr =>
        match parseDate dstr with
        | none => .ok (d, .skippedBadDate)
        | some (actual, actualAware) =>
          if plannedAware = actualAware then
            let delay := timedeltaDays (actual - planned)
            let d' := { d with delayDays := some delay }
            match d.typ with
            | none => .ok (d', .missingTypeAfterWrite delay)
            | some t => .ok (d', .processed delay t)
          else .error ()

/-- The accumulators of the loop: `total_delay`, `sprint_count`,
`hotfix_count` (lines 31-33 of the script). -/
structure Stats where
  totalDelay : Int
  sprintCount : Nat
  hotfixCount : Nat
  deriving Repr, DecidableEq

def Stats.init : Stats := ⟨0, 0, 0⟩

/-- Python `str.lower()` on ASCII, as applied to the `Type` field. -/
def pyLower (s : String) : String :=
  ⟨s.toList.map fun c =>
    if c.toNat ≥ 65 && c.toNat ≤ 90 then Char.ofNat (c.toNat + 32) else c⟩

/-- Accumulator update of one iteration (lines 52-58): only a fully
processed record reaches the type counters and the
`total_delay += delay` statement. -/
def stepStats (s : Stats) : Outcome → Stats
  | .processed delay t =>
    let s1 :=
      if pyLower t = "sprint" then { s with sprintCount := s.sprintCount + 1 }
      else if pyLower t = "hotfix" then
        { s with hotfixCount := s.hotfixCount + 1 }
      else s
    { s1 with totalDelay := s1.totalDelay + delay }
  | _ => s

/-- Number of warning lines one iteration prints: exactly one for each
caught `KeyError` or `ValueError`, none for a processed record. -/
def Outcome.warnings : Outcome → Nat
  | .processed _ _ => 0
  | _ => 1

/-- Whether the record was successfully processed, i.e. its delay was
computed and accumulated into `total_delay`. -/
def Outcome.isProcessed : Outcome → Bool
  | .processed _ _ => true
  | _ => false

/-- The whole loop: records are visited left to right; a caught
`KeyError`/`ValueError` does not abort the loop, but an uncaught
`TypeError` of any iteration aborts the entire loop (`.error ()`). -/
def processAll : List Deployment → Except Unit (List Deployment × List Outcome)
  | [] => .ok ([], [])
  | d :: ds =>
    match processOne d with
    | .error e => .error e
    | .ok (d', o) =>
      match processAll ds with
      | .error e => .error e
      | .ok (ds', os) => .ok (d' :: ds', o :: os)

/-- The final accumulator state after the loop (defined only when the
loop ran to completion). -/
def runStats (ds : List Deployment) : Except Unit Stats :=
  (processAll ds).map fun r => r.2.foldl stepStats Stats.init

/-- `total_deployments = len(data['deployments'])` (line 70). -/
def totalDeployments (doc : Document) : Nat :=
  doc.deployments.length

/-- Count of successfully processed records of a completed run (not a
variable of the script; used to state claims about the intended
average). -/
def processedCount (ds : List Deployment) : Except Unit Nat :=
  (processAll ds).map fun r => (r.2.filter Outcome.isProcessed).length

/-- The average the script reports (line 71):
`total_delay / total_deployments if total_deployments > 0 else 0`, the
float division modelled exactly over `Rat`.  Note the divisor is the
count of ALL records. -/
def avgDelay (doc : Document) : Except Unit Rat :=
  (runStats doc.deployments).map fun st =>
    if totalDeployments doc > 0 then
      (st.totalDelay : Rat) / (totalDeployments doc : Rat)
    else 0

/-- The document the script writes back (lines 49, 74) when the loop ran
to completion: updated records and
`lastUpdated = datetime.utcnow().isoformat() + 'Z'`, where `now` is the
`isoformat()` string of the wall-clock instant of the run. -/
def updateDocument (doc : Document) (now : String) : Except Unit Document :=
  (processAll doc.deployments).map fun r =>
    { deployments := r.1, lastUpdated := some (now ++ "Z") }

/-! ## The whole script run (file system interaction)

The state of `data/deployments.json` is `none` when the file does not
exist, `some (.error ())` when its content is not valid JSON, and
`some (.ok doc)` when it parses to `doc`.  The script exits 1 without
writing when the file is missing (lines 18-20), when `json.load` raises
`JSONDecodeError` (lines 92-95), or when an uncaught exception (such as
the aware-minus-naive `TypeError`) reaches the catch-all at lines 96-98;
the single write happens only after the entire computation succeeded
(lines 77-78). -/

/-- On-disk state of the data file. -/
abbrev FileState := Option (Except Unit Document)

/-- Exit code and resulting file state of one run of
`calculate_delays()`. -/
def runCalculateDelays (fs : FileState) (now : String) : Nat × FileState :=
  match fs with
  | none => (1, none)
  | some (.error ()) => (1, some (.error ()))
  | some (.ok doc) =>
    match updateDocument doc now with
    | .error () => (1, some (.ok doc))
    | .ok doc' => (0, some (.ok doc'))

/-! ## `deploy_dashboard.py` (lines 77-185)

The script issues exactly one `requests.post` (there is no loop and no
retry around it) and then branches on the outcome.  The outcome of that
single request is modelled by `RequestResult`; the branch taken determines
the diagnostic block printed and the exit status. -/

/-- Outcome of the single `requests.post` call: an HTTP response with a
status code, or one of the transport-level exceptions the script
catches. -/
inductive RequestResult where
  | response (status : Nat)
  | sslError
  | connectionError
  | timeoutError
  | otherError
  deriving Repr, DecidableEq

/-- Which diagnostic block the script prints for the outcome. -/
inductive Diagnostic where
  /-- "Dashboard Deployed Successfully!" (status 200). -/
  | deployedOk
  /-- "Authentication Failed (401 Unauthorized)". -/
  | authenticationFailed
  /-- "Permission Denied (403 Forbidden)". -/
  | permissionDenied
  /-- "Not Found (404)". -/
  | endpointNotFound
  /-- "Deployment Failed: HTTP {status}" for any other status. -/
  | httpFailure (status : Nat)
  /-- "SSL Certificate Error". -/
  | sslCertificate
  /-- "Connection Error". -/
  | connectionFailed
  /-- "Request Timeout". -/
  | requestTimedOut
  /-- "Unexpected Error". -/
  | unexpected
  deriving Repr, DecidableEq

/-- The response/exception handling of `deploy_dashboard` (lines 77-185):
exit code together with the diagnostic block printed.  Only the 200
branch falls through to the end of the function (exit status 0); every
other branch calls `sys.exit(1)`. -/
def handleDeployResult : RequestResult → Nat × Diagnostic
  | .response s =>
    if s = 200 then (0, .deployedOk)
    else if s = 401 then (1, .authenticationFailed)
    else if s = 403 then (1, .permissionDenied)
    else if s = 404 then (1, .endpointNotFound)
    else (1, .httpFailure s)
  | .sslError => (1, .sslCertificate)
  | .connectionError => (1, .connectionFailed)
  | .timeoutError => (1, .requestTimedOut)
  | .otherError => (1, .unexpected)

/-! ## `serve_data.py`, route `/api/deployments` (lines 17-29) -/

/-- JSON body returned by the `/api/deployments` handler: either
`jsonify(data)` (the full parsed collection) or a `jsonify({"error": msg})`
object. -/
inductive ServeBody where
  | payload (doc : Document)
  | errorObj (msg : String)
  deriving Repr, DecidableEq

/-- Whether the body is a JSON object containing an `"error"` key. -/
def ServeBody.hasErrorKey : ServeBody → Bool
  | .payload _ => false
  | .errorObj _ => true

/-- The `get_deployments` handler: `open` + `json.load` under a `try`
whose `FileNotFoundError` branch returns 404 and whose `JSONDecodeError`
branch returns 500, the success path returning the data with 200. -/
def get_deployments : FileState → ServeBody × Nat
  | none => (.errorObj "Deployments file not found", 404)
  | some (.error ()) => (.errorObj "Invalid JSON in deployments file", 500)
  | some (.ok doc) => (.payload doc, 200)

/-! ## Concrete records used as witnesses -/

/-- A record with both dates present and parseable (the example of the
specification: planned 2024-01-01, actual 2024-01-06). -/
def exampleOnTime : Deployment :=
  { name := some "web-portal"
    plannedDeploymentDate := some "2024-01-01T00:00:00Z"
    deploymentDate := some "2024-01-06T00:00:00Z"
    typ := some "sprint"
    delayDays := none }

/-- A record whose `DeploymentDate` key is absent. -/
def exampleNoActual : Deployment :=
  { name := some "auth-service"
    plannedDeploymentDate := some "2024-03-01T00:00:00Z"
    deploymentDate := none
    typ := some "hotfix"
    delayDays := none }

/-- A record with parseable dates but no `Type` key
(planned 2024-03-01, actual 2024-03-06, five days of delay). -/
def exampleNoType : Deployment :=
  { name := some "data-pipeline"
    plannedDeploymentDate := some "2024-03-01T00:00:00Z"
    deploymentDate := some "2024-03-06T00:00:00Z"
    typ := none
    delayDays := none }

/-- A document with one processable record of delay 5 and one skipped
record: the script's average over ALL records is 5/2, the average over
processed records would be 5. -/
def skewDoc : Document :=
  { deployments :=
      [ { exampleOnTime with
          plannedDeploymentDate := some "2024-03-01T00:00:00Z"
          deploymentDate := some "2024-03-06T00:00:00Z" }
      , exampleNoActual ]
    lastUpdated := none }

/-! ## Helper lemmas -/

/-- `timedelta.days` is the floor of the exact duration measured in
days. -/
lemma timedeltaDays_eq_floor (m : Int) :
    timedeltaDays m = ⌊(m : ℚ) / ((microsPerDay : ℤ) : ℚ)⌋ := by
  have hcast : ((microsPerDay : ℤ) : ℚ) = ((86400000000 : ℕ) : ℚ) := by
    norm_num [microsPerDay, microsPerSecond]
  rw [hcast, Rat.floor_intCast_div_natCast]
  unfold timedeltaDays
  rw [Int.fdiv_eq_ediv _ (by norm_num [microsPerDay, microsPerSecond])]
  norm_num [microsPerDay, microsPerSecond]

/-- The delay contributed to `total_delay` by one outcome. -/
def Outcome.delayContribution : Outcome → Int
  | .processed delay _ => delay
  | _ => 0

lemma stepStats_totalDelay (s : Stats) (o : Outcome) :
    (stepStats s o).totalDelay = s.totalDelay + o.delayContribution := by
  cases o with
  | processed delay t =>
    simp only [stepStats, Outcome.delayContribution]
    split
    · rfl
    · split <;> rfl
  | skippedMissingDate => simp [stepStats, Outcome.delayContribution]
  | skippedBadDate => simp [stepStats, Outcome.delayContribution]
  | missingTypeAfterWrite delay => simp [stepStats, Outcome.delayContribution]

lemma stepStats_not_processed (s : Stats) (o : Outcome)
    (h : o.isProcessed = false) : stepStats s o = s := by
  cases o <;> simp_all [Outcome.isProcessed, stepStats]

lemma foldl_stepStats_all_skipped (os : List Outcome) (s : Stats)
    (h : ∀ o ∈ os, o.isProcessed = false) :
    os.foldl stepStats s = s := by
  induction os generalizing s with
  | nil => rfl
  | cons o os ih =>
    simp only [List.foldl_cons]
    rw [stepStats_not_processed s o (h o (by simp))]
    exact ih s fun o' ho' => h o' (by simp [ho'])

/-- Whether the loop body hits a date-related `KeyError` or `ValueError`
for this record (all of which fire before `DelayDays` is written). -/
def skipsDates (d : Deployment) : Bool :=
  match d.plannedDeploymentDate with
  | none => true
  | some ps =>
    match parseDate ps with
    | none => true
    | some _ =>
      match d.deploymentDate with
      | none => true
      | some ds => (parseDate ds).isNone

lemma processOne_of_skipsDates (d : Deployment) (h : skipsDates d = true) :
    processOne d = .ok (d, .skippedMissingDate) ∨
      processOne d = .ok (d, .skippedBadDate) := by
  cases hps : d.plannedDeploymentDate with
  | none => left; simp [processOne, hps]
  | some ps =>
    cases hp : parseDate ps with
    | none => right; simp [processOne, hps, hp]
    | some pa =>
      obtain ⟨p, pw⟩ := pa
      cases hds : d.deploymentDate with
      | none => left; simp [processOne, hps, hp, hds]
      | some dstr =>
        cases ha : parseDate dstr with
        | none => right; simp [processOne, hps, hp, hds, ha]
        | some ab =>
          exfalso
          simp [skipsDates, hps, hp, hds, ha] at h

lemma processOne_idem (d d' : Deployment) (o : Outcome)
    (h : processOne d = .ok (d', o)) : processOne d' = .ok (d', o) := by
  cases hps : d.plannedDeploymentDate with
  | none =>
    simp [processOne, hps] at h
    obtain ⟨h1, h2⟩ := h
    subst h1; subst h2
    simp [processOne, hps]
  | some ps =>
    cases hp : parseDate ps with
    | none =>
      simp [processOne, hps, hp] at h
      obtain ⟨h1, h2⟩ := h
      subst h1; subst h2
      simp [processOne, hps, hp]
    | some pa =>
      obtain ⟨p, pw⟩ := pa
      cases hds : d.deploymentDate with
      | none =>
        simp [processOne, hps, hp, hds] at h
        obtain ⟨h1, h2⟩ := h
        subst h1; subst h2
        simp [processOne, hps, hp, hds]
      | some dstr =>
        cases ha : parseDate dstr with
        | none =>
          simp [processOne, hps, hp, hds, ha] at h
          obtain ⟨h1, h2⟩ := h
          subst h1; subst h2
          simp [processOne, hps, hp, hds, ha]
        | some ab =>
          obtain ⟨a, aw⟩ := ab
          by_cases hw : pw = aw
          · subst hw
            cases hty : d.typ with
            | none =>
              simp [processOne, hps, hp, hds, ha, hty] at h
              obtain ⟨h1, h2⟩ := h
              subst h1; subst h2
              simp [processOne, hps, hp, hds, ha, hty]
            | some t =>
              simp [processOne, hps, hp, hds, ha, hty] at h
              obtain ⟨h1, h2⟩ := h
              subst h1; subst h2
              simp [processOne, hps, hp, hds, ha, hty]
          · simp [processOne, hps, hp, hds, ha, hw] at h

lemma processAll_cons_error (d : Deployment) (ds : List Deployment) (e : Unit)
    (h : processOne d = .error e) : processAll (d :: ds) = .error e := by
  simp [processAll, h]

lemma processAll_cons_ok (d : Deployment) (ds : List Deployment)
    (d' : Deployment) (o : Outcome) (h : processOne d = .ok (d', o)) :
    processAll (d :: ds) =
      (processAll ds).map fun r => (d' :: r.1, o :: r.2) := by
  cases hpa : processAll ds with
  | error e => simp [processAll, h, hpa, Except.map]
  | ok r => simp [processAll, h, hpa, Except.map]

lemma processAll_append_ok (l1 l2 : List Deployment)
    (r1 : List Deployment × List Outcome) (h1 : processAll l1 = .ok r1) :
    processAll (l1 ++ l2) =
      (processAll l2).map fun r2 => (r1.1 ++ r2.1, r1.2 ++ r2.2) := by
  induction l1 generalizing r1 with
  | nil =>
    simp only [processAll] at h1
    simp only [Except.ok.injEq] at h1
    subst h1
    cases hpa : processAll l2 with
    | error e => simp [Except.map, hpa]
    | ok r2 => simp [Except.map, hpa]
  | cons d rest ih =>
    cases hd : processOne d with
    | error e =>
      rw [processAll_cons_error d rest e hd] at h1
      simp at h1
    | ok r =>
      obtain ⟨d', o⟩ := r
      rw [processAll_cons_ok d rest d' o hd] at h1
      cases hrest : processAll rest with
      | error e => rw [hrest] at h1; simp [Except.map] at h1
      | ok rr =>
        rw [hrest] at h1
        simp only [Except.map, Except.ok.injEq] at h1
        subst h1
        rw [List.cons_append, processAll_cons_ok d (rest ++ l2) d' o hd,
          ih rr hrest]
        cases hpa2 : processAll l2 <;> simp [Except.map]

lemma processAll_append_error (l1 l2 : List Deployment)
    (h1 : processAll l1 = .error ()) :
    processAll (l1 ++ l2) = .error () := by
  induction l1 with
  | nil => simp [processAll] at h1
  | cons d rest ih =>
    cases hd : processOne d with
    | error e =>
      obtain ⟨⟩ := e
      rw [List.cons_append, processAll_cons_error d (rest ++ l2) () hd]
    | ok r =>
      obtain ⟨d', o⟩ := r
      rw [processAll_cons_ok d rest d' o hd] at h1
      cases hrest : processAll rest with
      | error e =>
        obtain ⟨⟩ := e
        rw [List.cons_append, processAll_cons_ok d (rest ++ l2) d' o hd,
          ih hrest]
        simp [Except.map]
      | ok rr => rw [hrest] at h1; simp [Except.map] at h1

lemma runStats_middle_skip (d : Deployment) (o : Outcome)
    (ho : processOne d = .ok (d, o)) (hs : ∀ s, stepStats s o = s)
    (pre post : List Deployment) :
    runStats (pre ++ d :: post) = runStats (pre ++ post) := by
  unfold runStats
  cases hpre : processAll pre with
  | error e =>
    obtain ⟨⟩ := e
    rw [processAll_append_error pre (d :: post) hpre,
      processAll_append_error pre post hpre]
  | ok r1 =>
    rw [processAll_append_ok pre (d :: post) r1 hpre,
      processAll_append_ok pre post r1 hpre,
      processAll_cons_ok d post d o ho]
    cases hpost : processAll post with
    | error e => obtain ⟨⟩ := e; simp [Except.map]
    | ok r2 =>
      simp [Except.map, List.foldl_append, hs]

lemma processAll_idem (ds ds' : List Deployment) (os : List Outcome)
    (h : processAll ds = .ok (ds', os)) :
    processAll ds' = .ok (ds', os) := by
  induction ds generalizing ds' os with
  | nil =>
    simp only [processAll, Except.ok.injEq, Prod.mk.injEq] at h
    obtain ⟨h1, h2⟩ := h
    subst h1; subst h2
    rfl
  | cons d rest ih =>
    cases hd : processOne d with
    | error e => rw [processAll_cons_error d rest e hd] at h; simp at h
    | ok r =>
      obtain ⟨d', o⟩ := r
      rw [processAll_cons_ok d rest d' o hd] at h
      cases hrest : processAll rest with
      | error e => rw [hrest] at h; simp [Except.map] at h
      | ok rr =>
        obtain ⟨rds, ros⟩ := rr
        rw [hrest] at h
        simp only [Except.map, Except.ok.injEq, Prod.mk.injEq] at h
        obtain ⟨h1, h2⟩ := h
        subst h1; subst h2
        rw [processAll_cons_ok d' rds d' o (processOne_idem d d' o hd),
          ih rds ros hrest]
        rfl

/-- A record whose planned date is aware (`'Z'`-suffixed) but whose
actual date is naive (no offset): both strings parse, yet their
subtraction raises `TypeError`. -/
def exampleMixedAwareness : Deployment :=
  { name := some "search-service"
    plannedDeploymentDate := some "2024-01-01T00:00:00Z"
    deploymentDate := some "2024-01-02T00:00:00"
    typ := some "sprint"
    delayDays := none }

/-- Mixed-awareness dates with the `Type` key absent. -/
def exampleMixedNoType : Deployment :=
  { name := some "etl-job"
    plannedDeploymentDate := some "2024-03-01T00:00:00Z"
    deploymentDate := some "2024-03-06T00:00:00"
    typ := none
    delayDays := none }

/-- The document the calculator writes when run on `skewDoc` at
wall-clock `2024-06-01T00:00:00`. -/
def skewDocAfterRun : Document :=
  { deployments :=
      [ { name := some "web-portal"
          plannedDeploymentDate := some "2024-03-01T00:00:00Z"
          deploymentDate := some "2024-03-06T00:00:00Z"
          typ := some "sprint"
          delayDays := some 5 }
      , exampleNoActual ]
    lastUpdated := some ("2024-06-01T00:00:00" ++ "Z") }

/-! ## Claims -/

/-- Counterexample to C1 as frozen: both dates of `exampleMixedAwareness`
parse (the planned one aware, the actual one naive), yet the calculator
does not write `DelayDays` for the record: the subtraction raises an
uncaught `TypeError`, the whole run exits 1 and nothing is written. -/
theorem delayDays_mixed_awareness_counterexample :
    (parseDate "2024-01-01T00:00:00Z").isSome = true ∧
    (parseDate "2024-01-02T00:00:00").isSome = true ∧
    processOne exampleMixedAwareness = .error () ∧
    runCalculateDelays (some (.ok ⟨[exampleMixedAwareness], none⟩))
        "2024-06-01T00:00:00" =
      (1, some (.ok ⟨[exampleMixedAwareness], none⟩)) :=
  ⟨by decide, by decide, rfl, rfl⟩

/-- C1 (amended): for every record whose `PlannedDeploymentDate` and
`DeploymentDate` both parse to datetimes of equal awareness (both carry a
UTC offset after `Z`-normalisation, or neither does), the calculator
writes `DelayDays` equal to the whole-day difference of the two instants
truncated toward negative infinity, i.e. `⌊(actual − planned) / 1 day⌋`
(instants in microseconds, one day being `microsPerDay` microseconds);
with mixed awareness the run aborts instead (see the counterexample). -/
theorem delayDays_eq_floor_day_diff (d : Deployment) (ps dstr : String)
    (p a : Int) (w : Bool)
    (hps : d.plannedDeploymentDate = some ps)
    (hp : parseDate ps = some (p, w))
    (hds : d.deploymentDate = some dstr)
    (ha : parseDate dstr = some (a, w)) :
    ∃ o, processOne d =
      .ok ({ d with delayDays := some (Int.floor (((a - p : ℤ) : ℚ) /
               ((microsPerDay : ℤ) : ℚ))) }, o) := by
  simp only [← timedeltaDays_eq_floor]
  cases hty : d.typ with
  | none =>
    exact ⟨.missingTypeAfterWrite (timedeltaDays (a - p)),
      by simp [processOne, hps, hp, hds, ha, hty]⟩
  | some t =>
    exact ⟨.processed (timedeltaDays (a - p)) t,
      by simp [processOne, hps, hp, hds, ha, hty]⟩

/-- Witness for C1 at the specification's example: planned
`2024-01-01T00:00:00Z` and actual `2024-01-06T00:00:00Z` (both aware)
give `DelayDays = 5`. -/
theorem delayDays_eq_floor_day_diff_witness :
    (∃ o, processOne exampleOnTime =
      .ok ({ exampleOnTime with delayDays := some (Int.floor
               (((1704499200000000 - 1704067200000000 : ℤ) : ℚ) /
                 ((microsPerDay : ℤ) : ℚ))) }, o)) ∧
    processOne exampleOnTime =
      .ok ({ exampleOnTime with delayDays := some 5 },
        .processed 5 "sprint") :=
  ⟨delayDays_eq_floor_day_diff exampleOnTime
      "2024-01-01T00:00:00Z" "2024-01-06T00:00:00Z"
      1704067200000000 1704499200000000 true rfl (by decide) rfl (by decide),
    rfl⟩

/-- C2 (the code violates the claim): on `skewDoc` one record is
processed with delay 5 and one is skipped, yet the script reports an
average of `5 / 2` (divisor `total_deployments = 2`, the count of ALL
records), not the claimed `5 / 1` over successfully processed records. -/
theorem avgDelay_divides_by_total_count :
    processedCount skewDoc.deployments = .ok 1 ∧
    (runStats skewDoc.deployments).map Stats.totalDelay = .ok 5 ∧
    totalDeployments skewDoc = 2 ∧
    avgDelay skewDoc = .ok (5 / 2) ∧
    avgDelay skewDoc ≠ .ok (5 / 1) := by
  have hst : runStats skewDoc.deployments = .ok ⟨5, 1, 0⟩ := by rfl
  have htot : totalDeployments skewDoc = 2 := by rfl
  refine ⟨by rfl, ?_, htot, ?_, ?_⟩
  · rw [hst]; rfl
  · unfold avgDelay
    rw [hst, htot]
    simp only [Except.map]
    norm_num
  · unfold avgDelay
    rw [hst, htot]
    simp only [Except.map, ne_eq, Except.ok.injEq]
    norm_num

/-- C3: a record missing a date field or with an unparsable date is left
unmodified (no `DelayDays` written), generates exactly one warning, is
excluded from the accumulators, still counts toward `Total Deployments`,
and does not abort the run (the iteration completes normally with a
caught exception). -/
theorem skipped_record_unmodified_one_warning (d : Deployment)
    (h : skipsDates d = true) :
    (∃ o, processOne d = .ok (d, o) ∧ o.warnings = 1 ∧
      ∀ s, stepStats s o = s) ∧
    (∀ pre post, runStats (pre ++ d :: post) = runStats (pre ++ post)) ∧
    (∀ pre post lu, totalDeployments ⟨pre ++ d :: post, lu⟩ =
      (pre ++ post).length + 1) := by
  have hcase := processOne_of_skipsDates d h
  have main : ∃ o, processOne d = .ok (d, o) ∧ o.warnings = 1 ∧
      ∀ s, stepStats s o = s := by
    rcases hcase with hc | hc
    · exact ⟨.skippedMissingDate, hc, rfl, fun s => rfl⟩
    · exact ⟨.skippedBadDate, hc, rfl, fun s => rfl⟩
  obtain ⟨o, ho, hw, hsk⟩ := main
  refine ⟨⟨o, ho, hw, hsk⟩, ?_, ?_⟩
  · intro pre post
    exact runStats_middle_skip d o ho hsk pre post
  · intro pre post lu
    simp only [totalDeployments, List.length_append, List.length_cons]
    omega

/-- Witness for C3: a record whose `DeploymentDate` key is absent is left
unmodified, warns once, leaves the accumulators alone, and still counts
toward the deployment total. -/
theorem skipped_record_unmodified_one_warning_witness :
    processOne exampleNoActual = .ok (exampleNoActual, .skippedMissingDate) ∧
    Outcome.warnings .skippedMissingDate = 1 ∧
    stepStats Stats.init .skippedMissingDate = Stats.init ∧
    runStats ([] ++ exampleNoActual :: []) = runStats ([] ++ []) ∧
    totalDeployments ⟨[] ++ exampleNoActual :: [], none⟩ =
      ([] ++ ([] : List Deployment)).length + 1 := by
  have h := skipped_record_unmodified_one_warning exampleNoActual (by decide)
  exact ⟨by rfl, rfl, rfl, h.2.1 [] [], h.2.2 [] [] none⟩

/-- Counterexample to C4 as frozen: `exampleMixedNoType` has two
parseable dates and no `Type` key, yet no `DelayDays` is written and no
warning is printed: the mixed-awareness `TypeError` at the subtraction
(line 49) fires before the `DelayDays` assignment (line 50) and aborts
the run uncaught (exit 1, no write). -/
theorem missing_type_mixed_awareness_counterexample :
    (parseDate "2024-03-01T00:00:00Z").isSome = true ∧
    (parseDate "2024-03-06T00:00:00").isSome = true ∧
    exampleMixedNoType.typ = none ∧
    processOne exampleMixedNoType = .error () ∧
    runCalculateDelays (some (.ok ⟨[exampleMixedNoType], none⟩))
        "2024-06-01T00:00:00" =
      (1, some (.ok ⟨[exampleMixedNoType], none⟩)) :=
  ⟨by decide, by decide, rfl, rfl, rfl⟩

/-- C4 (amended): a record whose dates parse to datetimes of equal
awareness but whose `Type` key is absent still gets `DelayDays` written
(the `KeyError` on `Type` fires after the assignment), then warns once,
and contributes to none of the accumulators (total delay, sprint counter,
hotfix counter); with mixed awareness the run aborts before the
assignment instead (see the counterexample). -/
theorem missing_type_still_writes_delayDays (d : Deployment)
    (ps dstr : String) (p a : Int) (w : Bool)
    (hps : d.plannedDeploymentDate = some ps)
    (hp : parseDate ps = some (p, w))
    (hds : d.deploymentDate = some dstr)
    (ha : parseDate dstr = some (a, w))
    (hty : d.typ = none) :
    processOne d = .ok ({ d with delayDays := some (timedeltaDays (a - p)) },
      .missingTypeAfterWrite (timedeltaDays (a - p))) ∧
    Outcome.warnings (.missingTypeAfterWrite (timedeltaDays (a - p))) = 1 ∧
    (∀ s, stepStats s (.missingTypeAfterWrite (timedeltaDays (a - p))) = s) := by
  refine ⟨by simp [processOne, hps, hp, hds, ha, hty], rfl, fun s => rfl⟩

/-- Witness for C4: a record with parseable aware dates five days apart
and no `Type` key gets `DelayDays = 5` written and leaves the
accumulators alone. -/
theorem missing_type_still_writes_delayDays_witness :
    processOne exampleNoType =
      .ok ({ exampleNoType with
          delayDays := some (timedeltaDays (1709683200000000 -
            1709251200000000)) },
        .missingTypeAfterWrite (timedeltaDays (1709683200000000 -
          1709251200000000))) ∧
    timedeltaDays (1709683200000000 - 1709251200000000) = 5 ∧
    stepStats Stats.init
        (.missingTypeAfterWrite (timedeltaDays (1709683200000000 -
          1709251200000000))) =
      Stats.init := by
  have h := missing_type_still_writes_delayDays exampleNoType
    "2024-03-01T00:00:00Z" "2024-03-06T00:00:00Z"
    1709251200000000 1709683200000000 true rfl (by decide) rfl (by decide) rfl
  exact ⟨h.1, by decide, h.2.2 Stats.init⟩

/-- C5: a missing data file or malformed JSON terminates the run with
exit status 1 and the file state unchanged; the single write of the
updated document happens only when the whole computation succeeds (an
uncaught in-loop exception likewise exits 1 without writing). -/
theorem fatal_input_exits_nonzero_no_write (fs : FileState) (now : String) :
    ((fs = none ∨ fs = some (.error ())) →
      (runCalculateDelays fs now).1 = 1 ∧
        (runCalculateDelays fs now).2 = fs) ∧
    (∀ doc doc', fs = some (.ok doc) → updateDocument doc now = .ok doc' →
      runCalculateDelays fs now = (0, some (.ok doc'))) ∧
    (∀ doc, fs = some (.ok doc) → updateDocument doc now = .error () →
      (runCalculateDelays fs now).1 = 1 ∧
        (runCalculateDelays fs now).2 = fs) := by
  refine ⟨?_, ?_, ?_⟩
  · rintro (rfl | rfl) <;> exact ⟨rfl, rfl⟩
  · rintro doc doc' rfl h
    simp [runCalculateDelays, h]
  · rintro doc rfl h
    simp [runCalculateDelays, h]

/-- Witness for C5: with the data file absent the run exits 1 and leaves
the (absent) file untouched. -/
theorem fatal_input_exits_nonzero_no_write_witness :
    (runCalculateDelays none "2024-01-01T00:00:00").1 = 1 ∧
    (runCalculateDelays none "2024-01-01T00:00:00").2 = none :=
  (fatal_input_exits_nonzero_no_write none "2024-01-01T00:00:00").1
    (Or.inl rfl)

/-- C6: a second run on the output of a (completed) first run reproduces
every record's `DelayDays` unchanged (the computation reads only the date
and `Type` fields, which the first run did not modify), while
`lastUpdated` is overwritten on every run with the run's own wall-clock
string suffixed by a literal `Z`. -/
theorem second_run_idempotent_delays_fresh_lastUpdated (doc doc1 : Document)
    (now1 now2 : String) (h1 : updateDocument doc now1 = .ok doc1) :
    ∃ doc2, updateDocument doc1 now2 = .ok doc2 ∧
      doc2.deployments.map Deployment.delayDays =
        doc1.deployments.map Deployment.delayDays ∧
      doc2.lastUpdated = some (now2 ++ "Z") ∧
      doc1.lastUpdated = some (now1 ++ "Z") := by
  unfold updateDocument at h1
  cases hpa : processAll doc.deployments with
  | error e => rw [hpa] at h1; simp [Except.map] at h1
  | ok r =>
    obtain ⟨ds', os⟩ := r
    rw [hpa] at h1
    simp only [Except.map, Except.ok.injEq] at h1
    subst h1
    refine ⟨⟨ds', some (now2 ++ "Z")⟩, ?_, rfl, rfl, rfl⟩
    have hidem := processAll_idem doc.deployments ds' os hpa
    simp [updateDocument, hidem, Except.map]

/-- Witness for C6: a second run on the written output of a first run on
`skewDoc` keeps both records' `DelayDays` and refreshes
`lastUpdated`. -/
theorem second_run_idempotent_delays_fresh_lastUpdated_witness :
    ∃ doc2, updateDocument skewDocAfterRun "2024-06-02T00:00:00" =
        .ok doc2 ∧
      doc2.deployments.map Deployment.delayDays =
        skewDocAfterRun.deployments.map Deployment.delayDays ∧
      doc2.lastUpdated = some ("2024-06-02T00:00:00" ++ "Z") ∧
      skewDocAfterRun.lastUpdated = some ("2024-06-01T00:00:00" ++ "Z") :=
  second_run_idempotent_delays_fresh_lastUpdated skewDoc skewDocAfterRun
    "2024-06-01T00:00:00" "2024-06-02T00:00:00" (by rfl)

/-- C7: the `Type` classification lowercases the field before comparing,
so any casing of `sprint` increments the sprint counter, any casing of
`hotfix` the hotfix counter, and any other value neither. -/
theorem type_classification_case_insensitive (s : Stats) (delay : Int)
    (t : String) :
    (pyLower t = "sprint" →
      stepStats s (.processed delay t) =
        { s with sprintCount := s.sprintCount + 1,
                 totalDelay := s.totalDelay + delay }) ∧
    (pyLower t = "hotfix" →
      stepStats s (.processed delay t) =
        { s with hotfixCount := s.hotfixCount + 1,
                 totalDelay := s.totalDelay + delay }) ∧
    (pyLower t ≠ "sprint" → pyLower t ≠ "hotfix" →
      stepStats s (.processed delay t) =
        { s with totalDelay := s.totalDelay + delay }) := by
  refine ⟨fun h => ?_, fun h => ?_, fun h1 h2 => ?_⟩
  · simp [stepStats, h]
  · simp [stepStats, h]
  · simp [stepStats, h1, h2]

/-- Witness for C7: `"SPRINT"` counts as a sprint, `"HotFix"` as a
hotfix, and `"release"` as neither. -/
theorem type_classification_case_insensitive_witness :
    stepStats ⟨0, 0, 0⟩ (.processed 3 "SPRINT") = ⟨3, 1, 0⟩ ∧
    stepStats ⟨0, 0, 0⟩ (.processed 3 "HotFix") = ⟨3, 0, 1⟩ ∧
    stepStats ⟨0, 0, 0⟩ (.processed 3 "release") = ⟨3, 0, 0⟩ :=
  ⟨((type_classification_case_insensitive ⟨0, 0, 0⟩ 3 "SPRINT").1
      (by decide)).trans (by decide),
    ((type_classification_case_insensitive ⟨0, 0, 0⟩ 3 "HotFix").2.1
      (by decide)).trans (by decide),
    ((type_classification_case_insensitive ⟨0, 0, 0⟩ 3 "release").2.2
      (by decide) (by decide)).trans (by decide)⟩

/-- C8: the average computation is guarded on the record count, so no
division by zero is ever performed: an empty record list reports 0, zero
processable records report 0 (the accumulated total is then 0), and
whenever the division is taken its divisor is positive. -/
theorem avg_delay_division_guarded (doc : Document) :
    (totalDeployments doc = 0 → avgDelay doc = .ok 0) ∧
    (processedCount doc.deployments = .ok 0 → avgDelay doc = .ok 0) ∧
    (totalDeployments doc > 0 → ∀ st, runStats doc.deployments = .ok st →
      avgDelay doc =
        .ok ((st.totalDelay : ℚ) / (totalDeployments doc : ℚ)) ∧
      (totalDeployments doc : ℚ) ≠ 0) := by
  refine ⟨fun h => ?_, fun h => ?_, fun h st hst => ⟨?_, ?_⟩⟩
  · have hnil : doc.deployments = [] := List.length_eq_zero.mp h
    simp [avgDelay, runStats, processAll, hnil, totalDeployments, Except.map]
  · unfold processedCount at h
    cases hpa : processAll doc.deployments with
    | error e => rw [hpa] at h; simp [Except.map] at h
    | ok r =>
      rw [hpa] at h
      simp only [Except.map, Except.ok.injEq] at h
      have hall : ∀ o ∈ r.2, o.isProcessed = false := by
        intro o ho
        simpa using List.filter_eq_nil_iff.mp (List.length_eq_zero.mp h) o ho
      have hfold : r.2.foldl stepStats Stats.init = Stats.init :=
        foldl_stepStats_all_skipped _ _ hall
      unfold avgDelay runStats
      rw [hpa]
      simp only [Except.map, hfold, Except.ok.injEq]
      split <;> simp [Stats.init]
  · unfold avgDelay
    rw [hst]
    simp [Except.map, if_pos h]
  · exact Nat.cast_ne_zero.mpr (by omega)

/-- Witness for C8: a document whose only record is skipped (zero
processable records) reports an average delay of 0. -/
theorem avg_delay_division_guarded_witness :
    avgDelay ⟨[exampleNoActual], none⟩ = .ok 0 :=
  (avg_delay_division_guarded ⟨[exampleNoActual], none⟩).2.1 (by rfl)

/-- C9: the dashboard publisher exits 0 exactly on HTTP 200; every other
status and every transport failure prints its category's diagnostic block
and exits 1 (the single `requests.post` is never retried: the handler
consumes exactly one request outcome). -/
theorem deploy_exit_zero_iff_http200 (r : RequestResult) :
    ((handleDeployResult r).1 = 0 ↔ r = .response 200) ∧
    handleDeployResult (.response 401) = (1, .authenticationFailed) ∧
    handleDeployResult (.response 403) = (1, .permissionDenied) ∧
    handleDeployResult (.response 404) = (1, .endpointNotFound) ∧
    handleDeployResult .sslError = (1, .sslCertificate) ∧
    handleDeployResult .connectionError = (1, .connectionFailed) ∧
    handleDeployResult .timeoutError = (1, .requestTimedOut) := by
  refine ⟨?_, rfl, rfl, rfl, rfl, rfl, rfl⟩
  cases r with
  | response s =>
    simp only [handleDeployResult]
    split_ifs with h1 h2 h3 h4 <;> simp_all
  | sslError => simp [handleDeployResult]
  | connectionError => simp [handleDeployResult]
  | timeoutError => simp [handleDeployResult]
  | otherError => simp [handleDeployResult]

/-- C10: `/api/deployments` returns 404 with a JSON `error` body when the
backing file is absent, and the full parsed collection with 200 when it
exists and parses. -/
theorem api_deployments_absent_404_present_200 (doc : Document) :
    get_deployments none = (.errorObj "Deployments file not found", 404) ∧
    (get_deployments none).1.hasErrorKey = true ∧
    get_deployments (some (.ok doc)) = (.payload doc, 200) :=
  ⟨rfl, rfl, rfl⟩

end DeploymentTracker

